import Mathlib

/-!
# Verification of the Monitoring_tool scheduler / probe / alerting pipeline

Shallow embedding of the monitoring core of the `Monitoring_tool` repository:

* `backend/src/jobs/monitoringScheduler.js` — the cron-sweep scheduler
  (`start`, `scheduleMonitor`, `stopMonitor`, `restartMonitor`);
* `backend/src/services/apiMonitorService.js` (`checkApiUrlStatus` revision,
  the one the scheduler calls) — the HTTP probe;
* `backend/src/services/certMonitorService.js` (native-TLS revision) — the
  TLS certificate probe;
* `backend/src/services/notificationService.js` — `sendSnmpTrap`,
  `getUserAlertConfig`.

JavaScript effects are modelled by explicit state passing: database writes,
TLS connections and alert sends become entries of an `Effect` trace, a JS
`throw` becomes `Except.error`, network and database behaviour are oracle
parameters, and JS `Date` values are epoch milliseconds (`Int`).
-/

/-- One row of the `Urls` table (`backend/src/db/models/sql_schema.sql`).
Nullable columns are `Option`; timestamps are epoch milliseconds. -/
structure UrlRow where
  id : Nat
  user_id : Nat
  name : String
  url : String
  type_ : String
  monitoring_interval_minutes : Nat
  proxy_config_id : Option Nat
  is_active : Bool
  last_status : Option String
  last_latency : Option Int
  last_checked_at : Option Int
  certificate_status : Option String
  days_remaining : Option Int
  deriving Repr, DecidableEq

/-- Outcome of one `axios.get` call: either an HTTP response was received
(with its status code — `validateStatus: () => true` makes axios return
every status instead of throwing), or the request threw (network error,
DNS failure, timeout). -/
inductive HttpOutcome where
  | response (code : Nat)
  | netError (msg : String)
  deriving Repr, DecidableEq

/-- Status determination of `checkApiUrlStatus`
(`apiMonitorService.js`, lines 52–76 of the scheduler-facing revision):
a received response with code in [200, 500) is `up`; a response with any
other code is `down` with an `HTTP Status: c` error; a request that threw
is `down` with the error message and sentinel status code 0. Returns
(status, statusCode, error). -/
def apiOutcome : HttpOutcome → String × Option Nat × Option String
  | HttpOutcome.response c =>
      if 200 ≤ c ∧ c < 500 then ("up", some c, none)
      else ("down", some c, some ("HTTP Status: " ++ toString c))
  | HttpOutcome.netError m => ("down", some 0, some m)

/-- Character-level check for the OID format regex `^(\.\d+)+$` of
`sendSnmpTrap` (`notificationService.js` line 61): after a leading dot the
tail must be digit groups separated by single dots, each group non-empty.
`seen` records whether the current group already has a digit. -/
def oidTail : Bool → List Char → Bool
  | seen, [] => seen
  | seen, c :: rest =>
      if c.isDigit then oidTail true rest
      else if c = '.' then seen && oidTail false rest
      else false

/-- `^(\.\d+)+$`: a leading dot followed by at least one digit, with every
further dot again followed by at least one digit. -/
def oidMatches : List Char → Bool
  | '.' :: rest => oidTail false rest
  | _ => false

/-- The OID validation performed by `sendSnmpTrap` before anything else:
`!oid || !/^(\.\d+)+$/.test(oid)` rejects (the empty string is falsy and
also fails the regex, so string emptiness needs no separate case). -/
def isValidOid (oid : String) : Bool := oidMatches oid.toList

/-- Observable effects of the SNMP trap sender. -/
inductive SnmpEffect where
  | warnLog (msg : String)
  | createSession (host community : String)
  | trapSent (host oid value : String)
  deriving Repr, DecidableEq

/-- `sendSnmpTrap` (`notificationService.js` lines 59–95): validate the OID
format first; then require receiver host and community; only then create a
per-call session and send the trap. `receiverHost` and `community` are
`Option` because the config fields come from unset environment variables as
JS `undefined`. -/
def sendSnmpTrap (receiverHost community : Option String)
    (oid value : String) : List SnmpEffect :=
  if ¬ isValidOid oid then
    [SnmpEffect.warnLog ("SNMP trap sending skipped: Invalid OID string provided: " ++ oid)]
  else
    match receiverHost, community with
    | some h, some c =>
        [SnmpEffect.createSession h c, SnmpEffect.trapSent h oid value]
    | _, _ => [SnmpEffect.warnLog "SNMP trap sending skipped: receiver host or community not configured."]

/-- `true` iff the effect reaches the SNMP transport layer (session
creation or trap emission). -/
def SnmpEffect.isTransport : SnmpEffect → Bool
  | SnmpEffect.createSession _ _ => true
  | SnmpEffect.trapSent _ _ _ => true
  | SnmpEffect.warnLog _ => false

/-- Observable effects of a probe tick: database writes, the TLS connection
attempt, alert dispatches and error logs.  `NOW()` timestamps inside SQL are
supplied when a trace is applied to a store (`applyEffects`). -/
inductive Effect where
  /-- `UPDATE Urls SET last_status, last_checked_at, last_latency` of
  `checkApiUrlStatus`. -/
  | updateUrlStatus (id : Nat) (status : String) (latency : Option Int)
  /-- `INSERT INTO MonitoringLogs` of `checkApiUrlStatus`. -/
  | insertLog (id : Nat) (status : String) (latency : Option Int)
      (statusCode : Option Nat) (error : Option String)
  /-- `UPDATE Urls SET certificate_status, days_remaining, last_status,
  last_checked_at [, last_error]` of `checkCertStatus`; `error = none`
  means the statement does not touch `last_error` (the non-HTTPS branch),
  `error = some none` writes `last_error = NULL`, `error = some (some e)`
  writes the message `e`. -/
  | updateCert (id : Nat) (certState : Option String) (days : Option Int)
      (status : String) (error : Option (Option String))
  /-- `tls.connect` to a host on port 443. -/
  | tlsConnect (host : String)
  /-- `notificationService.sendApiDownAlert(user_id, url, msg)`. -/
  | alertApiDown (userId : Nat) (url msg : String)
  /-- `notificationService.sendCertificateExpiryAlert(user_id, url, ...)`. -/
  | alertCertExpiry (userId : Nat) (url : String) (days : Option Int)
  /-- `logger.error(...)`. -/
  | logError (msg : String)
  deriving Repr, DecidableEq

/-- Failure behaviour of the database for the writes of one tick: `none`
means the statement succeeds, `some e` means `db.execute` rejects with
message `e`. -/
structure DbBehavior where
  updateUrlsFails : Option String
  insertLogFails : Option String
  deriving Repr, DecidableEq

/-- `checkApiUrlStatus` (`apiMonitorService.js`, scheduler-facing revision):
classify the axios outcome with `apiOutcome`, fire an `sendApiDownAlert` for
5xx responses and for network errors, then persist — the `UPDATE Urls` and
the `INSERT INTO MonitoringLogs` share one `try { } catch { logger.error }`
block, so a failing update skips the insert.  Arguments are the fields the
function destructures from its `urlObject` (`name` is used only in log
lines and the proxy lookup only configures axios, whose behaviour the
`http` oracle already determines, so both are elided).  `latency` stands
for the measured `process.hrtime` difference.  The function itself never
throws: the axios call and proxy lookup sit in the outer try/catch and the
persistence block in its own. -/
def checkApiUrlStatus (latency : Int) (http : HttpOutcome)
    (dbb : DbBehavior) (urlId userId : Nat) (url : String) : List Effect :=
  let (status, statusCode, error) := apiOutcome http
  let probeEffects : List Effect :=
    match http with
    | HttpOutcome.response c =>
        if 200 ≤ c ∧ c < 500 then []
        else [Effect.alertApiDown userId url ("HTTP Status " ++ toString c)]
    | HttpOutcome.netError m => [Effect.alertApiDown userId url m]
  let persistEffects : List Effect :=
    match dbb.updateUrlsFails with
    | some e => [Effect.logError e]
    | none =>
        Effect.updateUrlStatus urlId status (some latency) ::
          (match dbb.insertLogFails with
           | some e => [Effect.logError e]
           | none => [Effect.insertLog urlId status (some latency) statusCode error])
  probeEffects ++ persistEffects

/-- JavaScript `Math.ceil(a / b)` for integer `a` and positive integer `b`
(division exact over the reals in the relevant range): ceiling division,
written as the negated floor division of the negation. -/
def jsCeilDiv (a b : Int) : Int := -((-a) / b)

/-- One day in milliseconds: `1000 * 60 * 60 * 24`. -/
def msPerDay : Int := 86400000

/-- Certificate classification of `checkCertStatus`
(`certMonitorService.js`, native-TLS revision, lines 305–326):
`daysRemaining = Math.ceil((valid_to − now) / 86400000)`; `expired` when the
expiry date is before `now`, else `warning` when `daysRemaining` is at most
the warning threshold (`config.alerting.certWarningDays`), else `valid`.
Returns (certificate_status, days_remaining). -/
def certClassify (nowMs validToMs warnDays : Int) : String × Int :=
  let diffTime := validToMs - nowMs
  let daysRemaining := jsCeilDiv diffTime msPerDay
  if validToMs < nowMs then ("expired", daysRemaining)
  else if daysRemaining ≤ warnDays then ("warning", daysRemaining)
  else ("valid", daysRemaining)

/-- Classification as the specification words it: `days_remaining =
ceil((notAfter − now) / 1 day)` computed with the mathematical ceiling over
ℚ; `notAfter < now → expired`, otherwise `days_remaining ≤ threshold →
warning`, otherwise `valid`. -/
def specCertClassify (nowMs validToMs warnDays : Int) : String × Int :=
  let daysRemaining : Int := ⌈((validToMs - nowMs : Int) : ℚ) / (msPerDay : ℚ)⌉
  if validToMs < nowMs then ("expired", daysRemaining)
  else if daysRemaining ≤ warnDays then ("warning", daysRemaining)
  else ("valid", daysRemaining)

/-- `url.startsWith('https://')` — the guard of `checkCertStatus`
(`certMonitorService.js`, native-TLS revision, line `if
(!url.startsWith('https://'))`), as a character-list prefix test. -/
def isHttpsPrefix (url : String) : Bool :=
  "https://".toList.isPrefixOf url.toList

/-- The URL's scheme: the characters before the first `:`. -/
def urlScheme (url : String) : String :=
  String.mk (url.toList.takeWhile (fun c => c ≠ ':'))

/-- Modelled from the spec and the WHATWG URL platform behaviour that
`new URL(url).hostname` relies on (the repository calls the builtin): for a
URL starting with `https://`, the hostname is the run of characters before
the first `/`, `:`, `?` or `#`; the constructor throws a `TypeError` when
that host is empty (e.g. `new URL("https://")`).  A throw is `Except.error`.
The non-`https://` case is never consulted by the embedded code paths. -/
def parseUrlHost (url : String) : Except String String :=
  if isHttpsPrefix url then
    let host := (url.toList.drop 8).takeWhile
      (fun c => c ≠ '/' && c ≠ ':' && c ≠ '?' && c ≠ '#')
    if host.isEmpty then Except.error ("Invalid URL: " ++ url)
    else Except.ok (String.mk host)
  else Except.error ("Invalid URL: " ++ url)

/-- The leaf certificate the TLS peer presents, as the fields the code
reads; `valid_to`/`valid_from` are the parsed `Date` values in epoch
milliseconds. -/
structure CertInfo where
  valid_to : Int
  valid_from : Int
  deriving Repr, DecidableEq

/-- Outcome of `tls.connect(hostname, 443, rejectUnauthorized: false)`:

* `handshake (Except.ok (some ci))` — handshake completed and
  `getPeerCertificate()` returned a complete certificate object;
* `handshake (Except.ok none)` — handshake completed but the peer
  certificate object is missing `valid_to`/`valid_from` (the code's
  `unavailable` case);
* `handshake (Except.error m)` — handshake completed but certificate
  extraction/processing threw `m` (the code's `error` case);
* `netError m` — the socket emitted `error`;
* `timeout` — the socket emitted `timeout`. -/
inductive TlsOutcome where
  | handshake (cert : Except String (Option CertInfo))
  | netError (msg : String)
  | timeout
  deriving Repr

/-- The result object `checkCertStatus` resolves and returns (consumed by
the certificate cron callback for its alert decision). -/
structure CertResult where
  status : Option String
  expiryDate : Option Int
  daysRemaining : Option Int
  error : Option String
  overallStatus : String
  deriving Repr, DecidableEq

/-- The persistence tail shared by all reachable paths of `checkCertStatus`
(native-TLS revision, lines 370–394): one `UPDATE Urls` in a try/catch that
only logs on failure.  The statement includes `last_error = ?` when the
result carries an error and `last_error = NULL` otherwise. -/
def certPersist (dbFails : Option String) (urlId : Nat) (r : CertResult) :
    List Effect :=
  match dbFails with
  | some e => [Effect.logError e]
  | none => [Effect.updateCert urlId r.status r.daysRemaining r.overallStatus (some r.error)]

/-- `checkCertStatus` (`certMonitorService.js`, native-TLS revision).

* Non-`https://` URL: record `certificate_status = not_applicable`,
  `days_remaining = NULL`, `last_status = up`, persist immediately (this
  branch's UPDATE does not touch `last_error`) and return — the `net`
  oracle is never consulted, no connection is attempted.
* Otherwise `new URL(url).hostname` runs **outside any try/catch** (line
  `const hostname = new URL(url).hostname;`): an invalid URL makes the
  whole function reject, modelled as `Except.error`.
* Otherwise connect; every socket path resolves the promise (the native
  revision never rejects it), classify with `certClassify`, then persist.

Returns the resolved result together with the effect trace. -/
def checkCertStatus (nowMs warnDays : Int) (net : TlsOutcome)
    (dbFails : Option String) (urlId : Nat) (url : String) :
    Except String (CertResult × List Effect) :=
  if ¬ isHttpsPrefix url then
    let r : CertResult :=
      { status := some "not_applicable", expiryDate := none,
        daysRemaining := none, error := none, overallStatus := "up" }
    let persist : List Effect :=
      match dbFails with
      | some e => [Effect.logError e]
      | none => [Effect.updateCert urlId (some "not_applicable") none "up" none]
    Except.ok (r, persist)
  else
    match parseUrlHost url with
    | Except.error e => Except.error e
    | Except.ok host =>
        let r : CertResult :=
          match net with
          | TlsOutcome.handshake (Except.ok (some ci)) =>
              let (cs, days) := certClassify nowMs ci.valid_to warnDays
              { status := some cs, expiryDate := some ci.valid_to,
                daysRemaining := some days, error := none, overallStatus := "up" }
          | TlsOutcome.handshake (Except.ok none) =>
              { status := some "unavailable", expiryDate := none,
                daysRemaining := none,
                error := some "No complete certificate object found or could not be parsed from peer.",
                overallStatus := "up" }
          | TlsOutcome.handshake (Except.error m) =>
              { status := some "error", expiryDate := none,
                daysRemaining := none,
                error := some ("Error processing certificate: " ++ m),
                overallStatus := "up" }
          | TlsOutcome.netError m =>
              { status := some "not_reachable", expiryDate := none,
                daysRemaining := none,
                error := some ("TLS connection error: " ++ m),
                overallStatus := "down" }
          | TlsOutcome.timeout =>
              { status := some "not_reachable", expiryDate := none,
                daysRemaining := none,
                error := some "TLS connection timed out.",
                overallStatus := "down" }
        Except.ok (r, Effect.tlsConnect host :: certPersist dbFails urlId r)

/-- `true` iff the effect is the TLS connection attempt. -/
def Effect.isTlsConnect : Effect → Bool
  | Effect.tlsConnect _ => true
  | _ => false

/-- The row shape produced by the API sweep's SELECT
(`monitoringScheduler.js` lines 27–44): it lists `u.id, u.user_id, u.name,
u.url, u.type, u.monitoring_interval_minutes` and the joined proxy columns
— and **not** `u.last_checked_at`.  The JS property read
`urlEntry.last_checked_at` at line 53 therefore yields `undefined`,
modelled as an `Option` field that the selection leaves `none`.  Proxy
columns are omitted here (no embedded path reads them; the probe's network
behaviour is an oracle). -/
structure ApiSweepRow where
  id : Nat
  user_id : Nat
  name : String
  url : String
  type_ : String
  monitoring_interval_minutes : Nat
  last_checked_at : Option Int
  deriving Repr, DecidableEq

/-- The API sweep's SELECT: keep active rows of type `'API'` and project to
the selected columns.  `last_checked_at := none` because the column list of
the query does not include it. -/
def selectApiRows (db : List UrlRow) : List ApiSweepRow :=
  (db.filter (fun u => u.is_active && u.type_ == "API")).map (fun u =>
    { id := u.id, user_id := u.user_id, name := u.name, url := u.url,
      type_ := u.type_,
      monitoring_interval_minutes := u.monitoring_interval_minutes,
      last_checked_at := none })

/-- The staleness gate of the sweep loop (`monitoringScheduler.js` lines
52–58): `lastCheckedAt = urlEntry.last_checked_at ? new
Date(urlEntry.last_checked_at) : new Date(0)`, then probe iff
`(now - lastCheckedAt) / 60000 >= monitoring_interval_minutes` (real
division, stated equivalently over ms). -/
def sweepDue (nowMs : Int) (r : ApiSweepRow) : Bool :=
  let lastCheckedAt : Int := r.last_checked_at.getD 0
  (r.monitoring_interval_minutes : Int) * 60000 ≤ nowMs - lastCheckedAt

/-- Apply one effect to the `Urls` store.  `NOW()` is `nowMs`.  Alert
sends, log lines, `MonitoringLogs` inserts and the TLS connect do not touch
the `Urls` table.  (The `last_error` column written by some revisions does
not exist in `sql_schema.sql`, so no `UrlRow` field models it.) -/
def applyEffect (nowMs : Int) (db : List UrlRow) : Effect → List UrlRow
  | Effect.updateUrlStatus id status latency =>
      db.map (fun u =>
        if u.id = id then
          { u with last_status := some status, last_latency := latency,
                   last_checked_at := some nowMs }
        else u)
  | Effect.updateCert id certState days status _ =>
      db.map (fun u =>
        if u.id = id then
          { u with certificate_status := certState, days_remaining := days,
                   last_status := some status, last_checked_at := some nowMs }
        else u)
  | _ => db

/-- Apply a trace of effects in order. -/
def applyEffects (nowMs : Int) (db : List UrlRow) (effs : List Effect) :
    List UrlRow :=
  effs.foldl (applyEffect nowMs) db

/-- Result of one firing of a scheduler cron callback. -/
structure TickResult where
  /-- The `Urls` store after the callback. -/
  store : List UrlRow
  /-- Ids whose probe ran during this callback, in order. -/
  ticked : List Nat
  /-- Effects emitted during this callback. -/
  effects : List Effect
  /-- Exception escaping the callback into the cron machinery, if any. -/
  escaped : Option String
  deriving Repr

/-- One firing of the `'*/1 * * * *'` API cron callback
(`monitoringScheduler.js` lines 23–72).  The whole body is inside
`try { } catch (error) { logger.error(...) }`, so a failing SELECT
(`selectFails`) is logged and nothing escapes; otherwise the loop probes
every selected row whose `sweepDue` gate passes (`checkApiUrlStatus` never
throws). -/
def apiCronTick (nowMs : Int) (latency : Nat → Int) (http : Nat → HttpOutcome)
    (dbb : Nat → DbBehavior) (selectFails : Option String)
    (db : List UrlRow) : TickResult :=
  match selectFails with
  | some e =>
      { store := db, ticked := [],
        effects := [Effect.logError ("Error during API monitoring job: " ++ e)],
        escaped := none }
  | none =>
      -- The loop runs over `rows`, selected once before it starts; the
      -- `sweepDue` gate reads only the selected row, never the mutated
      -- store, so the sequential loop equals: gate-filter the rows, probe
      -- each in order, apply all emitted effects in order.
      let rows := selectApiRows db
      let due := rows.filter (sweepDue nowMs)
      let effs := due.flatMap (fun r =>
        checkApiUrlStatus (latency r.id) (http r.id) (dbb r.id) r.id r.user_id r.url)
      { store := applyEffects nowMs db effs, ticked := due.map (fun r => r.id),
        effects := effs, escaped := none }

/-- The loop body of the daily certificate cron callback
(`monitoringScheduler.js` lines 83–92), over the rows its SELECT returned:
run `checkCertStatus`; on a normal result, alert when the returned status
is `expired`, or `warning` with `daysRemaining <= config.alerting.certWarningDays`
(a JS `null` compares as 0); a thrown exception aborts the loop and is
handed to the caller. -/
def runCertLoop (nowMs warnDays : Int) (net : Nat → TlsOutcome)
    (dbFails : Nat → Option String) :
    List UrlRow → List UrlRow → List UrlRow × List Nat × List Effect × Option String
  | db, [] => (db, [], [], none)
  | db, u :: rest =>
      match checkCertStatus nowMs warnDays (net u.id) (dbFails u.id) u.id u.url with
      | Except.error e => (db, [], [], some e)
      | Except.ok (res, effs) =>
          let alertEffs : List Effect :=
            if res.status = some "expired" ∨
                (res.status = some "warning" ∧ res.daysRemaining.getD 0 ≤ warnDays) then
              [Effect.alertCertExpiry u.user_id u.url res.daysRemaining]
            else []
          let db1 := applyEffects nowMs db effs
          let (db2, ids, effsRest, err) :=
            runCertLoop nowMs warnDays net dbFails db1 rest
          (db2, u.id :: ids, effs ++ alertEffs ++ effsRest, err)

/-- One firing of the `'0 2 * * *'` certificate cron callback
(`monitoringScheduler.js` lines 76–100): SELECT the active `'DOMAIN'` rows,
loop, and catch-and-log every throw — from the SELECT or escaping a
`checkCertStatus` call — so nothing propagates to the cron machinery. -/
def certCronTick (nowMs warnDays : Int) (net : Nat → TlsOutcome)
    (dbFails : Nat → Option String) (selectFails : Option String)
    (db : List UrlRow) : TickResult :=
  match selectFails with
  | some e =>
      { store := db, ticked := [],
        effects := [Effect.logError ("Error during Certificate monitoring job: " ++ e)],
        escaped := none }
  | none =>
      let rows := db.filter (fun u => u.is_active && u.type_ == "DOMAIN")
      let (db1, ids, effs, err) := runCertLoop nowMs warnDays net dbFails db rows
      match err with
      | some e =>
          { store := db1, ticked := ids,
            effects := effs ++ [Effect.logError ("Error during Certificate monitoring job: " ++ e)],
            escaped := none }
      | none => { store := db1, ticked := ids, effects := effs, escaped := none }

/-- `stopMonitor` (`monitoringScheduler.js` lines 154–161): logs a line and
does nothing else — every statement that would tear down a per-URL task is
commented out.  It neither touches the store nor throws. -/
def stopMonitor (_urlId : Nat) (db : List UrlRow) : List UrlRow := db

/-- `scheduleMonitor` (`monitoringScheduler.js` lines 130–145): when the
URL object is inactive, defer to `stopMonitor`; otherwise trigger one
immediate probe for it (`checkApiUrlStatus` for `'API'`,
`checkCertStatus` for `'DOMAIN'`, nothing for other type values).  A throw
from `checkCertStatus` escapes (the function does not catch).  Returns the
updated store and the number of probe ticks this call performed. -/
def scheduleMonitor (nowMs warnDays : Int) (latency : Int) (http : HttpOutcome)
    (net : TlsOutcome) (dbb : DbBehavior) (certDbFails : Option String)
    (u : UrlRow) (db : List UrlRow) : Except String (List UrlRow × Nat) :=
  if ¬ u.is_active then Except.ok (stopMonitor u.id db, 0)
  else if u.type_ == "API" then
    let effs := checkApiUrlStatus latency http dbb u.id u.user_id u.url
    Except.ok (applyEffects nowMs db effs, 1)
  else if u.type_ == "DOMAIN" then
    match checkCertStatus nowMs warnDays net certDbFails u.id u.url with
    | Except.error e => Except.error e
    | Except.ok (_, effs) => Except.ok (applyEffects nowMs db effs, 1)
  else Except.ok (db, 0)

/-- A database that never fails a write. -/
def benignDbb : DbBehavior := { updateUrlsFails := none, insertLogFails := none }

/-- Run the per-minute API sweep `m` times after registration time `t0`
(sweep `k` fires at `t0 + 60000·k`), counting cumulative probe ticks for
`targetId`. -/
def runApiSweeps (t0 : Int) (latency : Nat → Int) (http : Nat → HttpOutcome)
    (dbb : Nat → DbBehavior) (targetId : Nat) :
    Nat → List UrlRow → List UrlRow × Nat
  | 0, db => (db, 0)
  | Nat.succ k, db =>
      let (db1, c1) := runApiSweeps t0 latency http dbb targetId k db
      let tr := apiCronTick (t0 + 60000 * (Int.ofNat k + 1)) latency http dbb none db1
      (tr.store, c1 + tr.ticked.count targetId)

/-- A fresh active API target with the given monitoring interval, before
any probe has run. -/
def mkApiTarget (intervalMinutes : Nat) : UrlRow :=
  { id := 1, user_id := 1, name := "svc", url := "http://service.example/health",
    type_ := "API", monitoring_interval_minutes := intervalMinutes,
    proxy_config_id := none, is_active := true, last_status := none,
    last_latency := none, last_checked_at := none, certificate_status := none,
    days_remaining := none }

/-- End-to-end C1 scenario: register `mkApiTarget n` via `scheduleMonitor`
at epoch time 1700000000000 ms (its immediate probe is the first tick),
then let `minutes` sweep firings elapse with an always-healthy endpoint
and database; return the cumulative probe ticks for the target. -/
def c1CumulativeTicks (n minutes : Nat) : Nat :=
  let t0 : Int := 1700000000000
  let u := mkApiTarget n
  match scheduleMonitor t0 30 5 (HttpOutcome.response 200) TlsOutcome.timeout
      benignDbb none u [u] with
  | Except.error _ => 0
  | Except.ok (db1, c) =>
      c + (runApiSweeps t0 (fun _ => 5) (fun _ => HttpOutcome.response 200)
        (fun _ => benignDbb) 1 minutes db1).2

/-- One row of the `AlertConfigs` table; every alert column is nullable. -/
structure AlertConfigRow where
  email_recipient : Option String
  snmp_receiver_host : Option String
  snmp_community : Option String
  snmp_api_down_oid : Option String
  snmp_cert_expiry_oid : Option String
  cert_warning_days : Option Int
  deriving Repr, DecidableEq

/-- The process-wide defaults of `config/index.js`:
`config.alerting.emailRecipient` and `config.alerting.certWarningDays`
carry hard-coded fallbacks (`'admin@example.com'`, 30) so they are always
present; the SNMP fields come from environment variables without fallback
and may be absent. -/
structure AlertingDefaults where
  emailRecipient : String
  certWarningDays : Int
  snmpReceiverHost : Option String
  snmpCommunity : Option String
  snmpApiDownOid : Option String
  snmpCertExpiryOid : Option String
  deriving Repr, DecidableEq

/-- The fallback object built from `config` in both the empty-result branch
and the catch branch of `getUserAlertConfig`
(`notificationService.js` lines 116–123 and 127–134). -/
def defaultAlertConfig (c : AlertingDefaults) : AlertConfigRow :=
  { email_recipient := some c.emailRecipient,
    snmp_receiver_host := c.snmpReceiverHost,
    snmp_community := c.snmpCommunity,
    snmp_api_down_oid := c.snmpApiDownOid,
    snmp_cert_expiry_oid := c.snmpCertExpiryOid,
    cert_warning_days := some c.certWarningDays }

/-- `getUserAlertConfig` (`notificationService.js` lines 103–136): the
SELECT on `AlertConfigs` either yields rows or throws (`queryResult`); a
non-empty result returns its first row **verbatim**, an empty result or a
thrown query returns the config-built defaults. -/
def getUserAlertConfig (c : AlertingDefaults)
    (queryResult : Except String (List AlertConfigRow)) : AlertConfigRow :=
  match queryResult with
  | Except.ok (row :: _) => row
  | Except.ok [] => defaultAlertConfig c
  | Except.error _ => defaultAlertConfig c

/-- Resolution as the specification words it: each individual field of the
user row falls back to the process-wide default whenever it is absent,
not only when the whole row is absent. -/
def specResolveAlertConfig (c : AlertingDefaults)
    (queryResult : Except String (List AlertConfigRow)) : AlertConfigRow :=
  match queryResult with
  | Except.ok (row :: _) =>
      { email_recipient := row.email_recipient <|> some c.emailRecipient,
        snmp_receiver_host := row.snmp_receiver_host <|> c.snmpReceiverHost,
        snmp_community := row.snmp_community <|> c.snmpCommunity,
        snmp_api_down_oid := row.snmp_api_down_oid <|> c.snmpApiDownOid,
        snmp_cert_expiry_oid := row.snmp_cert_expiry_oid <|> c.snmpCertExpiryOid,
        cert_warning_days := row.cert_warning_days <|> some c.certWarningDays }
  | Except.ok [] => defaultAlertConfig c
  | Except.error _ => defaultAlertConfig c

/-- `true` iff the effect writes to the store (the `Urls` table or the
`MonitoringLogs` table). -/
def Effect.isStoreWrite : Effect → Bool
  | Effect.updateUrlStatus _ _ _ => true
  | Effect.updateCert _ _ _ _ _ => true
  | Effect.insertLog _ _ _ _ _ => true
  | _ => false

/-- `true` iff the effect is the `INSERT INTO MonitoringLogs` append. -/
def Effect.isInsertLog : Effect → Bool
  | Effect.insertLog _ _ _ _ _ => true
  | _ => false

deriving instance DecidableEq for Except

/-- A stored active `DOMAIN` target whose URL, `https://` with an empty
host, makes `new URL(url)` throw inside `checkCertStatus` before any
try/catch of that function; its stored status is `up` from an earlier
tick. -/
def c2FailingRow : UrlRow :=
  { id := 1, user_id := 7, name := "bad", url := "https://",
    type_ := "DOMAIN", monitoring_interval_minutes := 5,
    proxy_config_id := none, is_active := true, last_status := some "up",
    last_latency := none, last_checked_at := none,
    certificate_status := none, days_remaining := none }

/-- Concrete process-wide defaults with every channel configured. -/
def c5Defaults : AlertingDefaults :=
  { emailRecipient := "admin@example.com", certWarningDays := 30,
    snmpReceiverHost := some "10.0.0.1", snmpCommunity := some "public",
    snmpApiDownOid := some ".1.3.6.1.4.1.9999.1.1",
    snmpCertExpiryOid := some ".1.3.6.1.4.1.9999.1.2" }

/-- A user-specific `AlertConfigs` row that exists but has every nullable
column NULL. -/
def c5SparseRow : AlertConfigRow :=
  { email_recipient := none, snmp_receiver_host := none,
    snmp_community := none, snmp_api_down_oid := none,
    snmp_cert_expiry_oid := none, cert_warning_days := none }

/-- A stored inactive API target, for exercising `stopMonitor` and the
sweep's `is_active` filter. -/
def c6InactiveRow : UrlRow :=
  { mkApiTarget 5 with is_active := false }

/-- The result object of the non-HTTPS branch of `checkCertStatus`. -/
def nonHttpsResult : CertResult :=
  { status := some "not_applicable", expiryDate := none,
    daysRemaining := none, error := none, overallStatus := "up" }

/-- The persistence trace of the non-HTTPS branch of `checkCertStatus`. -/
def nonHttpsPersist (dbFails : Option String) (urlId : Nat) : List Effect :=
  match dbFails with
  | some e => [Effect.logError e]
  | none => [Effect.updateCert urlId (some "not_applicable") none "up" none]

/-- `jsCeilDiv` with a `ℕ`-denominator is the rational ceiling. -/
theorem jsCeilDiv_eq_ceil (a : Int) (b : Nat) :
    jsCeilDiv a b = ⌈(a : ℚ) / (b : ℚ)⌉ := by
  have hfloor : ⌊((-a : ℤ) : ℚ) / ((b : ℕ) : ℚ)⌋ = (-a) / (b : ℤ) :=
    Rat.floor_intCast_div_natCast (-a) b
  have hneg : (((-a : ℤ) : ℚ) / ((b : ℕ) : ℚ)) = -((a : ℚ) / (b : ℚ)) := by
    push_cast
    ring
  have h1 : (⌈(a : ℚ) / (b : ℚ)⌉ : ℤ) = -⌊-((a : ℚ) / (b : ℚ))⌋ := by
    rw [Int.floor_neg, neg_neg]
  rw [jsCeilDiv, h1, ← hneg, hfloor]

/-- The code's classification agrees everywhere with the specification's
formula-level classification. -/
theorem certClassify_eq_spec (nowMs validToMs warnDays : Int) :
    certClassify nowMs validToMs warnDays = specCertClassify nowMs validToMs warnDays := by
  have h : jsCeilDiv (validToMs - nowMs) msPerDay =
      ⌈((validToMs - nowMs : Int) : ℚ) / (msPerDay : ℚ)⌉ := by
    have := jsCeilDiv_eq_ceil (validToMs - nowMs) 86400000
    simpa [msPerDay] using this
  simp only [certClassify, specCertClassify, h]

/-- A URL that passes the code's `url.startsWith('https://')` test has
scheme `https`. -/
theorem urlScheme_of_httpsPrefix (url : String) (h : isHttpsPrefix url = true) :
    urlScheme url = "https" := by
  unfold isHttpsPrefix at h
  rw [List.isPrefixOf_iff_prefix] at h
  obtain ⟨t, ht⟩ := h
  unfold urlScheme
  rw [← ht]
  have hl : ("https://" : String).toList = ['h', 't', 't', 'p', 's', ':', '/', '/'] := by
    decide
  rw [hl]
  rw [List.cons_append, List.takeWhile_cons_of_pos (by decide)]
  rw [List.cons_append, List.takeWhile_cons_of_pos (by decide)]
  rw [List.cons_append, List.takeWhile_cons_of_pos (by decide)]
  rw [List.cons_append, List.takeWhile_cons_of_pos (by decide)]
  rw [List.cons_append, List.takeWhile_cons_of_pos (by decide)]
  rw [List.cons_append, List.takeWhile_cons_of_neg (by decide)]

/-- **C1.** Claimed: the scheduler's recurring mechanism fires a target's
probe exactly once per `monitoring_interval_minutes`, so after `schedule`
plus `N−1` minutes exactly 1 tick and at minute `N` exactly 2.  The code
violates this: the sweep's SELECT omits `last_checked_at` from its column
list, so every selected row carries `none` there, the staleness gate of
line 58 compares against epoch 0 and passes on every sweep minute.  For a
target with interval 2, one minute after registration the cumulative tick
count is already 2 (claimed: 1), and at minute 2 it is 3 (claimed: 2). -/
theorem c1_sweep_ignores_interval :
    (∀ (db : List UrlRow) (r : ApiSweepRow), r ∈ selectApiRows db →
      r.last_checked_at = none)
    ∧ c1CumulativeTicks 2 1 = 2 ∧ c1CumulativeTicks 2 2 = 3 := by
  refine ⟨?_, by decide, by decide⟩
  intro db r hr
  simp only [selectApiRows, List.mem_map] at hr
  obtain ⟨u, _, rfl⟩ := hr
  rfl

/-- Witness for the hypothesis-bearing conjunct of `c1_sweep_ignores_interval`
at a concrete store. -/
theorem c1_sweep_ignores_interval_witness :
    ({ id := 1, user_id := 1, name := "svc", url := "http://service.example/health",
       type_ := "API", monitoring_interval_minutes := 2,
       last_checked_at := none } : ApiSweepRow).last_checked_at = none
    ∧ c1CumulativeTicks 2 1 = 2 :=
  ⟨c1_sweep_ignores_interval.1 [mkApiTarget 2] _ (by decide),
   c1_sweep_ignores_interval.2.1⟩

/-- **C3.** The HTTP probe records `up` exactly for received responses with
status in [200, 500); responses ≥ 500 and requests that received no
response at all are recorded `down`; and the recorded outcome is the one
written to the `Urls` row by the probe's persistence step. -/
theorem c3_http_probe_classification :
    ∀ (http : HttpOutcome) (latency : Int) (urlId userId : Nat) (url : String),
      (∀ c, http = HttpOutcome.response c → 200 ≤ c → c < 500 →
        (apiOutcome http).1 = "up")
      ∧ (∀ c, http = HttpOutcome.response c → 500 ≤ c →
          (apiOutcome http).1 = "down")
      ∧ (∀ m, http = HttpOutcome.netError m → (apiOutcome http).1 = "down")
      ∧ Effect.updateUrlStatus urlId (apiOutcome http).1 (some latency) ∈
          checkApiUrlStatus latency http benignDbb urlId userId url := by
  intro http latency urlId userId url
  refine ⟨?_, ?_, ?_, ?_⟩
  · rintro c rfl h1 h2
    simp [apiOutcome, h1, h2]
  · rintro c rfl h1
    have hc : ¬ (200 ≤ c ∧ c < 500) := by omega
    simp [apiOutcome, hc]
  · rintro m rfl
    rfl
  · cases http with
    | response c =>
        by_cases hc : 200 ≤ c ∧ c < 500 <;>
          simp [checkApiUrlStatus, apiOutcome, benignDbb, hc]
    | netError m =>
        simp [checkApiUrlStatus, apiOutcome, benignDbb]

/-- Witness for `c3_http_probe_classification`: HTTP 200 recorded up,
HTTP 503 recorded down, a connection error recorded down. -/
theorem c3_http_probe_classification_witness :
    (apiOutcome (HttpOutcome.response 200)).1 = "up"
    ∧ (apiOutcome (HttpOutcome.response 503)).1 = "down"
    ∧ (apiOutcome (HttpOutcome.netError "connect ECONNREFUSED")).1 = "down" :=
  ⟨(c3_http_probe_classification (HttpOutcome.response 200) 0 1 1 "u").1 200 rfl
      (by decide) (by decide),
   (c3_http_probe_classification (HttpOutcome.response 503) 0 1 1 "u").2.1 503 rfl
      (by decide),
   (c3_http_probe_classification (HttpOutcome.netError "connect ECONNREFUSED") 0 1 1 "u").2.2.1
      "connect ECONNREFUSED" rfl⟩

/-- **C8.** Every OID failing the strict dotted-numeric format is rejected
by `sendSnmpTrap` with only a warning — no transport-layer effect — and
concretely `.1.3.6.1.4.1.9999.1.1` is accepted (trap sent) while
`1.3.6.1` is rejected with no trap. -/
theorem c8_snmp_oid_gate :
    (∀ (host comm : Option String) (oid value : String),
      isValidOid oid = false →
        (sendSnmpTrap host comm oid value).all (fun e => !e.isTransport) = true)
    ∧ isValidOid ".1.3.6.1.4.1.9999.1.1" = true
    ∧ isValidOid "1.3.6.1" = false
    ∧ SnmpEffect.trapSent "10.0.0.1" ".1.3.6.1.4.1.9999.1.1" "API Down: x" ∈
        sendSnmpTrap (some "10.0.0.1") (some "public") ".1.3.6.1.4.1.9999.1.1"
          "API Down: x"
    ∧ sendSnmpTrap (some "10.0.0.1") (some "public") "1.3.6.1" "v" =
        [SnmpEffect.warnLog
          "SNMP trap sending skipped: Invalid OID string provided: 1.3.6.1"] := by
  refine ⟨?_, by decide, by decide, by decide, by decide⟩
  intro host comm oid value h
  simp [sendSnmpTrap, h, SnmpEffect.isTransport]

/-- Witness for the hypothesis-bearing conjunct of `c8_snmp_oid_gate` at
the claim's own rejected OID. -/
theorem c8_snmp_oid_gate_witness :
    (sendSnmpTrap (some "10.0.0.1") (some "public") "1.3.6.1" "v").all
      (fun e => !e.isTransport) = true :=
  c8_snmp_oid_gate.1 (some "10.0.0.1") (some "public") "1.3.6.1" "v" (by decide)

/-- **C9.** When the `AlertConfigs` SELECT throws, `getUserAlertConfig`
returns (instead of raising) the complete set of process-wide defaults. -/
theorem c9_store_failure_falls_back_to_defaults :
    ∀ (c : AlertingDefaults) (e : String),
      getUserAlertConfig c (Except.error e) = defaultAlertConfig c
      ∧ (getUserAlertConfig c (Except.error e)).email_recipient = some c.emailRecipient
      ∧ (getUserAlertConfig c (Except.error e)).cert_warning_days = some c.certWarningDays
      ∧ (getUserAlertConfig c (Except.error e)).snmp_receiver_host = c.snmpReceiverHost
      ∧ (getUserAlertConfig c (Except.error e)).snmp_community = c.snmpCommunity
      ∧ (getUserAlertConfig c (Except.error e)).snmp_api_down_oid = c.snmpApiDownOid
      ∧ (getUserAlertConfig c (Except.error e)).snmp_cert_expiry_oid = c.snmpCertExpiryOid := by
  intro c e
  exact ⟨rfl, rfl, rfl, rfl, rfl, rfl, rfl⟩

/-- **C10.** In `checkApiUrlStatus` the `MonitoringLogs` append shares one
try/catch with the preceding `Urls` status update: when the update throws,
no log row is appended; when the database behaves, the log row is appended
(with the recorded status, latency, status code and error). -/
theorem c10_no_log_when_update_fails :
    ∀ (latency : Int) (http : HttpOutcome) (e : String) (ins : Option String)
      (urlId userId : Nat) (url : String),
      (checkApiUrlStatus latency http
          { updateUrlsFails := some e, insertLogFails := ins } urlId userId url).all
        (fun eff => !eff.isInsertLog) = true
      ∧ Effect.insertLog urlId (apiOutcome http).1 (some latency)
          (apiOutcome http).2.1 (apiOutcome http).2.2 ∈
        checkApiUrlStatus latency http benignDbb urlId userId url := by
  intro latency http e ins urlId userId url
  constructor
  · cases http with
    | response c =>
        by_cases hc : 200 ≤ c ∧ c < 500 <;>
          simp [checkApiUrlStatus, apiOutcome, hc, Effect.isInsertLog]
    | netError m =>
        simp [checkApiUrlStatus, apiOutcome, Effect.isInsertLog]
  · cases http with
    | response c =>
        by_cases hc : 200 ≤ c ∧ c < 500 <;>
          simp [checkApiUrlStatus, apiOutcome, benignDbb, hc]
    | netError m =>
        simp [checkApiUrlStatus, apiOutcome, benignDbb]

/-- **C2, counterexample.**  On a stored active DOMAIN target with URL
`https://` (empty host), `new URL(url)` throws outside every try/catch of
`checkCertStatus`; the certificate cron callback catches the exception —
but only logs it: no store write happens and the target's stored status
remains `up` with no error message, where the claim requires last_outcome
forced to `down` with an explanatory error written to the store. -/
theorem c2_counterexample :
    (certCronTick 1700000000000 30 (fun _ => TlsOutcome.timeout)
        (fun _ => none) none [c2FailingRow]).escaped = none
    ∧ (certCronTick 1700000000000 30 (fun _ => TlsOutcome.timeout)
        (fun _ => none) none [c2FailingRow]).store = [c2FailingRow]
    ∧ ((certCronTick 1700000000000 30 (fun _ => TlsOutcome.timeout)
        (fun _ => none) none [c2FailingRow]).effects.filter
          (fun e => e.isStoreWrite)) = []
    ∧ (certCronTick 1700000000000 30 (fun _ => TlsOutcome.timeout)
        (fun _ => none) none [c2FailingRow]).effects =
      [Effect.logError "Error during Certificate monitoring job: Invalid URL: https://"]
    ∧ c2FailingRow.last_status = some "up" := by
  decide

/-- **C2, amended.**  What does hold: no exception escapes either cron
callback (each wraps its whole body in try/catch), and in the HTTP probe a
probe failure is recorded as `down` in the store whenever the status
update statement itself succeeds; but a failure that escapes a probe into
the callback's catch (such as the URL-parse throw above) is only logged,
leaving the stored status untouched. -/
theorem c2_amended_containment :
    ∀ (nowMs warnDays : Int) (latency : Nat → Int) (http : Nat → HttpOutcome)
      (dbb : Nat → DbBehavior) (net : Nat → TlsOutcome)
      (dbFails : Nat → Option String) (selA selC : Option String)
      (db : List UrlRow) (lat : Int) (m : String) (dbb2 : DbBehavior)
      (urlId userId : Nat) (url : String),
      (apiCronTick nowMs latency http dbb selA db).escaped = none
      ∧ (certCronTick nowMs warnDays net dbFails selC db).escaped = none
      ∧ (dbb2.updateUrlsFails = none →
          Effect.updateUrlStatus urlId "down" (some lat) ∈
            checkApiUrlStatus lat (HttpOutcome.netError m) dbb2 urlId userId url) := by
  intro nowMs warnDays latency http dbb net dbFails selA selC db lat m dbb2 urlId userId url
  refine ⟨?_, ?_, ?_⟩
  · cases selA <;> rfl
  · cases selC with
    | some e => rfl
    | none =>
        simp only [certCronTick]
        rcases hrl : runCertLoop nowMs warnDays net dbFails db
            (db.filter fun u => u.is_active && u.type_ == "DOMAIN") with
          ⟨db1, ids, effs, err⟩
        cases err <;> simp [hrl]
  · intro h
    obtain ⟨uf, inf⟩ := dbb2
    simp only at h
    subst h
    cases inf <;> simp [checkApiUrlStatus, apiOutcome]

/-- Witness for the hypothesis-bearing conjunct of `c2_amended_containment`
at a concrete probe failure with a healthy database. -/
theorem c2_amended_containment_witness :
    (apiCronTick 0 (fun _ => 0) (fun _ => HttpOutcome.response 200)
        (fun _ => benignDbb) none []).escaped = none
    ∧ Effect.updateUrlStatus 1 "down" (some 5) ∈
        checkApiUrlStatus 5 (HttpOutcome.netError "connect ECONNREFUSED")
          benignDbb 1 2 "http://x" := by
  have h := c2_amended_containment 0 30 (fun _ => 0)
    (fun _ => HttpOutcome.response 200) (fun _ => benignDbb)
    (fun _ => TlsOutcome.timeout) (fun _ => none) none none [] 5
    "connect ECONNREFUSED" benignDbb 1 2 "http://x"
  exact ⟨h.1, h.2.2 rfl⟩

/-- **C5, counterexample.**  A user row that exists but has every nullable
column NULL is returned verbatim by `getUserAlertConfig`: its
`email_recipient` stays `none` instead of falling back to the process-wide
default, so the resolution differs from the claimed field-by-field one. -/
theorem c5_counterexample :
    getUserAlertConfig c5Defaults (Except.ok [c5SparseRow]) ≠
      specResolveAlertConfig c5Defaults (Except.ok [c5SparseRow])
    ∧ (getUserAlertConfig c5Defaults (Except.ok [c5SparseRow])).email_recipient = none
    ∧ (specResolveAlertConfig c5Defaults
        (Except.ok [c5SparseRow])).email_recipient = some "admin@example.com" := by
  decide

/-- **C5, amended.**  The fallback is row-level only: a non-empty query
result is returned verbatim (absent fields stay absent), and the full
defaults are used exactly when the user row is missing or the query
throws. -/
theorem c5_amended_row_level_fallback :
    ∀ (c : AlertingDefaults) (row : AlertConfigRow) (rest : List AlertConfigRow)
      (e : String),
      getUserAlertConfig c (Except.ok (row :: rest)) = row
      ∧ getUserAlertConfig c (Except.ok []) = defaultAlertConfig c
      ∧ getUserAlertConfig c (Except.error e) = defaultAlertConfig c := by
  intro c row rest e
  exact ⟨rfl, rfl, rfl⟩

/-- **C7.**  For every domain target whose URL scheme is not `https`, the
TLS probe reports `certificate_state = not_applicable`, outcome `up`,
`days_remaining = null`, attempts no TLS connection whatever the network
would do, and persists immediately (one `UPDATE Urls` when the database
accepts it). -/
theorem c7_non_https_not_applicable :
    ∀ (nowMs warnDays : Int) (net : TlsOutcome) (dbFails : Option String)
      (urlId : Nat) (url : String),
      urlScheme url ≠ "https" →
      ∃ r effs,
        checkCertStatus nowMs warnDays net dbFails urlId url = Except.ok (r, effs)
        ∧ r.status = some "not_applicable"
        ∧ r.overallStatus = "up"
        ∧ r.daysRemaining = none
        ∧ effs.all (fun e => !e.isTlsConnect) = true
        ∧ (dbFails = none →
            effs = [Effect.updateCert urlId (some "not_applicable") none "up" none]) := by
  intro nowMs warnDays net dbFails urlId url hscheme
  have hpre : isHttpsPrefix url = false := by
    cases hh : isHttpsPrefix url with
    | false => rfl
    | true => exact absurd (urlScheme_of_httpsPrefix url hh) hscheme
  refine ⟨nonHttpsResult, nonHttpsPersist dbFails urlId, ?_, rfl, rfl, rfl, ?_, ?_⟩
  · simp [checkCertStatus, hpre]
    exact ⟨rfl, rfl⟩
  · cases dbFails <;> rfl
  · intro h
    subst h
    rfl

/-- Witness for `c7_non_https_not_applicable` at the claim's own example, a
target with URL scheme `http`, with an unreachable network and a healthy
database. -/
theorem c7_non_https_not_applicable_witness :
    ∃ r effs,
      checkCertStatus 1700000000000 30 (TlsOutcome.netError "unreachable") none 1
          "http://example.com" = Except.ok (r, effs)
      ∧ r.status = some "not_applicable"
      ∧ r.overallStatus = "up"
      ∧ r.daysRemaining = none
      ∧ effs.all (fun e => !e.isTlsConnect) = true
      ∧ ((none : Option String) = none →
          effs = [Effect.updateCert 1 (some "not_applicable") none "up" none]) :=
  c7_non_https_not_applicable 1700000000000 30 (TlsOutcome.netError "unreachable")
    none 1 "http://example.com" (by decide)

/-- The `days_remaining` component of the specification classification is
the rational ceiling in every branch. -/
theorem specCertClassify_snd (nowMs validToMs warnDays : Int) :
    (specCertClassify nowMs validToMs warnDays).2 =
      ⌈((validToMs - nowMs : Int) : ℚ) / (msPerDay : ℚ)⌉ := by
  simp only [specCertClassify]
  split
  · rfl
  · split <;> rfl

/-- **C4.**  For every TLS probe execution that completes the handshake and
yields a parseable leaf certificate, the recorded `days_remaining` equals
`⌈(notAfter − now) / 1 day⌉` (mathematical ceiling over ℚ) and the
classification is exactly the specification's: `expired` when
`notAfter < now`, else `warning` when `days_remaining` is at most the
warning threshold, else `valid`. -/
theorem c4_cert_classification_refines_spec :
    ∀ (nowMs warnDays : Int) (ci : CertInfo) (dbFails : Option String)
      (urlId : Nat) (url host : String),
      isHttpsPrefix url = true →
      parseUrlHost url = Except.ok host →
      ∃ r effs,
        checkCertStatus nowMs warnDays (TlsOutcome.handshake (Except.ok (some ci)))
            dbFails urlId url = Except.ok (r, effs)
        ∧ r.daysRemaining = some ⌈((ci.valid_to - nowMs : Int) : ℚ) / (msPerDay : ℚ)⌉
        ∧ r.status = some (specCertClassify nowMs ci.valid_to warnDays).1
        ∧ r.overallStatus = "up" := by
  intro nowMs warnDays ci dbFails urlId url host hpre hparse
  have hcc := certClassify_eq_spec nowMs ci.valid_to warnDays
  rcases hcd : certClassify nowMs ci.valid_to warnDays with ⟨cs, days⟩
  have hdays : days = (specCertClassify nowMs ci.valid_to warnDays).2 := by
    rw [← hcc, hcd]
  have hcs : cs = (specCertClassify nowMs ci.valid_to warnDays).1 := by
    rw [← hcc, hcd]
  simp only [checkCertStatus, hpre, hparse, hcd]
  refine ⟨_, _, rfl, ?_, ?_, rfl⟩
  · show some days = some ⌈((ci.valid_to - nowMs : Int) : ℚ) / (msPerDay : ℚ)⌉
    rw [hdays, specCertClassify_snd]
  · show some cs = some (specCertClassify nowMs ci.valid_to warnDays).1
    rw [hcs]

/-- Witness for `c4_cert_classification_refines_spec`: a certificate
expiring 5 days from `now = 0` against a 30-day threshold. -/
theorem c4_cert_classification_refines_spec_witness :
    ∃ r effs,
      checkCertStatus 0 30
          (TlsOutcome.handshake (Except.ok (some { valid_to := 432000000, valid_from := 0 })))
          none 1 "https://example.com" = Except.ok (r, effs)
      ∧ r.daysRemaining =
          some ⌈(((432000000 : Int) - 0 : Int) : ℚ) / (msPerDay : ℚ)⌉
      ∧ r.status = some (specCertClassify 0 432000000 30).1
      ∧ r.overallStatus = "up" := by
  have h := c4_cert_classification_refines_spec 0 30
    { valid_to := 432000000, valid_from := 0 } none 1 "https://example.com"
    "example.com" (by decide) (by decide)
  simpa using h

/-- **C6, counterexample.**  `stopMonitor` tears down nothing (every
teardown statement in its body is commented out): one minute after
`stop(1)` on a store whose row is still `is_active = TRUE`, the sweep
probes target 1 again — the claim's "zero further ticks regardless of
elapsed time" fails. -/
theorem c6_counterexample :
    ((apiCronTick 1700000060000 (fun _ => 5) (fun _ => HttpOutcome.response 200)
        (fun _ => benignDbb) none (stopMonitor 1 [mkApiTarget 5])).ticked.contains 1)
      = true := by
  decide

/-- **C6, amended.**  `stopMonitor` is a no-op that never errs (also when
no entry exists for the id); ticks for a target stop exactly when its
`is_active` flag in the store is false — which the CRUD layer, not
`stopMonitor`, sets: the sweep never probes an id all of whose store rows
are inactive. -/
theorem c6_amended_stop_noop :
    ∀ (id : Nat) (db : List UrlRow) (nowMs : Int) (latency : Nat → Int)
      (http : Nat → HttpOutcome) (dbb : Nat → DbBehavior) (selF : Option String),
      stopMonitor id db = db
      ∧ ((∀ u ∈ db, u.id = id → u.is_active = false) →
          ((apiCronTick nowMs latency http dbb selF
              (stopMonitor id db)).ticked.contains id) = false) := by
  intro id db nowMs latency http dbb selF
  refine ⟨rfl, ?_⟩
  intro hinact
  cases selF with
  | some e => rfl
  | none =>
      simp only [stopMonitor, apiCronTick]
      have hmem : id ∉ ((selectApiRows db).filter (sweepDue nowMs)).map
          (fun r => r.id) := by
        intro hmem
        rcases List.mem_map.mp hmem with ⟨r, hr, hid⟩
        rcases List.mem_filter.mp hr with ⟨hrsel, _⟩
        simp only [selectApiRows, List.mem_map, List.mem_filter] at hrsel
        rcases hrsel with ⟨u, ⟨hu_db, hcond⟩, hproj⟩
        have huid : u.id = id := by
          rw [← hid, ← hproj]
        have hfalse := hinact u hu_db huid
        rw [hfalse] at hcond
        simp at hcond
      simp [hmem]

/-- Witness for `c6_amended_stop_noop` on a store whose only row for the
id is inactive. -/
theorem c6_amended_stop_noop_witness :
    stopMonitor 1 [c6InactiveRow] = [c6InactiveRow]
    ∧ ((apiCronTick 1700000060000 (fun _ => 5) (fun _ => HttpOutcome.response 200)
        (fun _ => benignDbb) none (stopMonitor 1 [c6InactiveRow])).ticked.contains 1)
      = false := by
  have h := c6_amended_stop_noop 1 [c6InactiveRow] 1700000060000 (fun _ => 5)
    (fun _ => HttpOutcome.response 200) (fun _ => benignDbb) none
  exact ⟨h.1, h.2 (by decide)⟩
